import Mathlib

/-!
Shallow embedding of the `fenio/setup-minikube` GitHub Action.

Source files embedded:
* the setup entry point (`main`, `installPrerequisites`, `installMinikube`,
  `startMinikube`, `waitForClusterReady`, `showDiagnostics`) from the
  action's index module;
* `src/cleanup.ts` (`cleanup`, `deleteMinikube`, `removeDockerIfInstalled`).

The action runs side-effecting commands (`exec.exec`), writes persisted
state (`core.saveState`), exports variables, and logs.  We embed each
function as a pure Lean function from an environment (which fixes the
outcome of every external command: exit codes, stdout, whether the spawn
itself throws) to the list of observable events it performs plus its
result (`Except` models a thrown JS error).  A command invocation is
recorded as an event whether or not the command then fails, so "the step
was attempted" is event membership in the trace.

Commands awaited without `ignoreReturnCode: true` throw on a nonzero exit
status; their outcome is a single `Bool` (`true` = exit 0).  Commands run
with `ignoreReturnCode: true` return their exit code; for those the
environment carries the exit code, and separately whether the spawn
itself throws (as `@actions/exec` does when the executable is missing),
which is the failure mode the teardown `try/catch` exists for.
-/

namespace SetupMinikube

/-- Decidable equality for `Except` results, so concrete runs can be
checked by `decide`. -/
instance {ε α : Type} [DecidableEq ε] [DecidableEq α] : DecidableEq (Except ε α) :=
  fun a b =>
    match a, b with
    | Except.ok x, Except.ok y =>
        if h : x = y then Decidable.isTrue (by rw [h])
        else Decidable.isFalse (by intro hc; injection hc; contradiction)
    | Except.error x, Except.error y =>
        if h : x = y then Decidable.isTrue (by rw [h])
        else Decidable.isFalse (by intro hc; injection hc; contradiction)
    | Except.ok _, Except.error _ => Decidable.isFalse (by intro hc; injection hc)
    | Except.error _, Except.ok _ => Decidable.isFalse (by intro hc; injection hc)

/-- Observable events of the action: external command invocations,
persisted-state writes, environment exports, PATH additions, job outputs,
warnings, directory creation (`fs.mkdir`) and polling sleeps. -/
inductive Ev where
  | run : String → List String → Ev
  | saveState : String → String → Ev
  | exportVar : String → String → Ev
  | addPath : String → Ev
  | setOutput : String → String → Ev
  | warning : String → Ev
  | mkdir : String → Ev
  | sleep : Nat → Ev
  deriving DecidableEq

/-- Exit codes of the four readiness commands run in one polling tick of
`waitForClusterReady`: `minikube status`, `kubectl cluster-info`, the
`grep -v " Ready "` node pipeline and the `grep -v "Running\|Completed"`
pod pipeline. -/
structure TickExit where
  statusExit : Nat
  clusterInfoExit : Nat
  nodesGrepExit : Nat
  podsGrepExit : Nat
  deriving DecidableEq

/-- A tick succeeds (the `break` is reached) when `minikube status` and
`kubectl cluster-info` exit 0 and both `grep -v` pipelines exit nonzero
(grep found no not-Ready node / no not-Running-or-Completed pod). -/
def tickPasses (t : TickExit) : Prop :=
  t.statusExit = 0 ∧ t.clusterInfoExit = 0 ∧ t.nodesGrepExit ≠ 0 ∧ t.podsGrepExit ≠ 0

instance (t : TickExit) : Decidable (tickPasses t) := by
  unfold tickPasses; infer_instance

/-- Names of the four layered readiness checks. -/
inductive CheckName where
  | driverRunning
  | apiReachable
  | nodesReady
  | systemPodsSettled
  deriving DecidableEq

/-- Which checks a single tick evaluates: the code nests each check inside
the success branch of the previous one, so a later check runs only when
every earlier check in the same tick passed. -/
def evaluatedChecks (t : TickExit) : List CheckName :=
  CheckName.driverRunning ::
    (if t.statusExit = 0 then
      CheckName.apiReachable ::
        (if t.clusterInfoExit = 0 then
          CheckName.nodesReady ::
            (if t.nodesGrepExit ≠ 0 then [CheckName.systemPodsSettled] else [])
        else [])
    else [])

/-- Structured trace events of the readiness loop: one `tick i evs` per
iteration (with the checks that iteration evaluated) and one `sleepW ms`
per `setTimeout` sleep. -/
inductive WEv where
  | tick : Nat → List CheckName → WEv
  | sleepW : Nat → WEv
  deriving DecidableEq

/-- Result of the readiness loop: success at a tick index with the elapsed
milliseconds measured at that loop entry, or the timeout throw with the
elapsed milliseconds that triggered it. -/
inductive WRes where
  | success : Nat → Nat → WRes
  | timeout : Nat → WRes
  deriving DecidableEq

/-- The `while (true)` loop body of `waitForClusterReady`.  `elapsed` is
the wall-clock milliseconds since `startTime` at loop entry; the code
compares `Math.floor(elapsed / 1000) > timeoutSeconds` and throws on
timeout.  A failed tick consumes `dur i` milliseconds for its check
commands plus the fixed 5000 ms sleep. -/
def awaitReadyAux (T : Nat) (c : Nat → TickExit) (dur : Nat → Nat)
    (i elapsed : Nat) : WRes × List WEv :=
  if T < elapsed / 1000 then (WRes.timeout elapsed, [])
  else if tickPasses (c i) then
    (WRes.success i elapsed, [WEv.tick i (evaluatedChecks (c i))])
  else
    let r := awaitReadyAux T c dur (i + 1) (elapsed + dur i + 5000)
    (r.1, WEv.tick i (evaluatedChecks (c i)) :: WEv.sleepW 5000 :: r.2)
termination_by (T + 1) * 1000 - elapsed
decreasing_by
  rename_i hT _
  have h1 : elapsed / 1000 < T + 1 := Nat.lt_succ_of_le (Nat.le_of_not_lt hT)
  have h2 : elapsed < (T + 1) * 1000 :=
    (Nat.div_lt_iff_lt_mul (by norm_num)).mp h1
  omega

/-- Environment fixing the outcome of every external interaction of the
setup phase: `os.homedir()`, `process.env.PATH`, `os.platform()`, the
trimmed stdout of `uname -m`, whether `which conntrack` exits 0, the
success of each command awaited without `ignoreReturnCode` (nonzero exit
throws there), the trimmed stdout of `which minikube`, and the per-tick
exit codes and durations of the readiness loop. -/
structure SetupEnv where
  home : String
  pathVar : String
  platform : String
  arch : String
  conntrackPresent : Bool
  aptUpdateOk : Bool
  aptInstallOk : Bool
  unameOk : Bool
  mkdirOk : Bool
  curlOk : Bool
  installOk : Bool
  rmTmpOk : Bool
  versionCheckOk : Bool
  whichOk : Bool
  whichOut : String
  startOk : Bool
  kubectlViewOk : Bool
  checks : Nat → TickExit
  tickDur : Nat → Nat

/-- `installPrerequisites`: on Linux only, check `which conntrack`
(`ignoreReturnCode: true`); when absent run `apt-get update` and
`apt-get install conntrack`, each of which throws on failure and is
rewrapped by the step's catch. -/
def installPrerequisites (env : SetupEnv) : List Ev × Except String Unit :=
  if env.platform ≠ "linux" then ([], Except.ok ())
  else
    let tr := [Ev.run "which" ["conntrack"]]
    if env.conntrackPresent then (tr, Except.ok ())
    else
      let tr := tr ++ [Ev.run "sudo" ["apt-get", "update", "-qq"]]
      if !env.aptUpdateOk then (tr, Except.error "Failed to install prerequisites")
      else
        let tr := tr ++ [Ev.run "sudo" ["apt-get", "install", "-y", "-qq", "conntrack"]]
        if !env.aptInstallOk then (tr, Except.error "Failed to install prerequisites")
        else (tr, Except.ok ())

/-- The architecture switch of `installMinikube`; `none` models the
`throw new Error(\x60Unsupported architecture\x60)` default branch. -/
def binaryArch : String → Option String
  | "x86_64" => some "amd64"
  | "aarch64" => some "arm64"
  | "arm64" => some "arm64"
  | "armv7l" => some "arm"
  | _ => none

/-- The platform switch of `installMinikube`. -/
def osPlatformName : String → Option String
  | "linux" => some "linux"
  | "darwin" => some "darwin"
  | _ => none

/-- Download URL construction of `installMinikube`. -/
def downloadUrl (version osp arch : String) : String :=
  if version = "latest" ∨ version = "stable" then
    "https://storage.googleapis.com/minikube/releases/latest/minikube-"
      ++ osp ++ "-" ++ arch
  else
    "https://github.com/kubernetes/minikube/releases/download/"
      ++ version ++ "/minikube-" ++ osp ++ "-" ++ arch

/-- `installMinikube`: uname, arch/platform mapping (fatal on unsupported
values, before any fetch), curl fetch, mkdir of `~/.local/bin`, `install`
of the binary, PATH export/prepend, the two ledger writes, temp-file
removal, `minikube version` verification and the `which minikube`
shadowing re-check (mismatch is only a warning). -/
def installMinikube (env : SetupEnv) (version : String) :
    List Ev × Except String Unit :=
  let tr := [Ev.run "uname" ["-m"]]
  if !env.unameOk then (tr, Except.error "Failed to install Minikube")
  else
    match binaryArch env.arch with
    | none =>
        (tr, Except.error
          ("Failed to install Minikube: Error: Unsupported architecture: " ++ env.arch))
    | some ba =>
      match osPlatformName env.platform with
      | none =>
          (tr, Except.error
            ("Failed to install Minikube: Error: Unsupported platform: " ++ env.platform))
      | some osp =>
        let tr := tr ++ [Ev.run "curl" ["-sfL", downloadUrl version osp ba, "-o", "/tmp/minikube"]]
        if !env.curlOk then (tr, Except.error "Failed to install Minikube")
        else
          let customBinDir := env.home ++ "/.local/bin"
          let minikubePath := customBinDir ++ "/minikube"
          let tr := tr ++ [Ev.mkdir customBinDir]
          if !env.mkdirOk then (tr, Except.error "Failed to install Minikube")
          else
            let tr := tr ++ [Ev.run "install" ["-m", "755", "/tmp/minikube", minikubePath]]
            if !env.installOk then (tr, Except.error "Failed to install Minikube")
            else
              let tr := tr ++
                [Ev.exportVar "PATH" (customBinDir ++ ":" ++ env.pathVar),
                 Ev.addPath customBinDir,
                 Ev.saveState "minikubePath" minikubePath,
                 Ev.saveState "customBinDir" customBinDir,
                 Ev.run "rm" ["-f", "/tmp/minikube"]]
              if !env.rmTmpOk then (tr, Except.error "Failed to install Minikube")
              else
                let tr := tr ++ [Ev.run "minikube" ["version"]]
                if !env.versionCheckOk then (tr, Except.error "Failed to install Minikube")
                else
                  let tr := tr ++ [Ev.run "which" ["minikube"]]
                  if !env.whichOk then (tr, Except.error "Failed to install Minikube")
                  else
                    let tr := tr ++
                      (if env.whichOut ≠ minikubePath then
                        [Ev.warning
                          ("Expected to use " ++ minikubePath ++ " but found " ++ env.whichOut)]
                      else [])
                    (tr, Except.ok ())

/-- Argument list of the `minikube start` invocation: `--driver` always,
`--kubernetes-version` pushed only when the version differs from the
literal `stable`. -/
def startArgs (kubernetesVersion driver : String) : List String :=
  ["start", "--driver", driver] ++
    (if kubernetesVersion ≠ "stable" then
      ["--kubernetes-version", kubernetesVersion]
    else [])

/-- `startMinikube`: run `minikube start`, query the cluster config via
`minikube kubectl`, then publish the kubeconfig path as a job output and
as the `KUBECONFIG` environment variable. -/
def startMinikube (env : SetupEnv) (kubernetesVersion driver : String) :
    List Ev × Except String Unit :=
  let tr := [Ev.run "minikube" (startArgs kubernetesVersion driver)]
  if !env.startOk then (tr, Except.error "Failed to start Minikube")
  else
    let tr := tr ++
      [Ev.run "minikube"
        ["kubectl", "--", "config", "view", "--minify", "--output",
         "jsonpath=\x7b..cluster\x7d"]]
    if !env.kubectlViewOk then (tr, Except.error "Failed to start Minikube")
    else
      let kubeconfigPath := env.home ++ "/.kube/config"
      let tr := tr ++
        [Ev.setOutput "kubeconfig" kubeconfigPath,
         Ev.exportVar "KUBECONFIG" kubeconfigPath]
      (tr, Except.ok ())

/-- The external command an evaluated readiness check runs. -/
def checkCmd : CheckName → Ev
  | CheckName.driverRunning => Ev.run "minikube" ["status"]
  | CheckName.apiReachable => Ev.run "kubectl" ["cluster-info"]
  | CheckName.nodesReady =>
      Ev.run "bash" ["-c", "kubectl get nodes --no-headers | grep -v \" Ready \""]
  | CheckName.systemPodsSettled =>
      Ev.run "bash"
        ["-c", "kubectl get pods -n kube-system --no-headers | grep -v \"Running\\|Completed\""]

/-- Flatten a readiness-loop trace event into observable command/sleep
events. -/
def wevToEvs : WEv → List Ev
  | WEv.tick _ evs => evs.map checkCmd
  | WEv.sleepW n => [Ev.sleep n]

/-- `showDiagnostics`: the five diagnostic commands dumped on timeout,
each run with `ignoreReturnCode: true`. -/
def diagnosticsEvs : List Ev :=
  [Ev.run "minikube" ["status"],
   Ev.run "minikube" ["logs", "--length=100"],
   Ev.run "kubectl" ["cluster-info"],
   Ev.run "kubectl" ["get", "nodes", "-o", "wide"],
   Ev.run "kubectl" ["get", "pods", "-n", "kube-system"]]

/-- `waitForClusterReady`: run the polling loop; on timeout dump
diagnostics and rethrow the timeout error wrapped in the step message. -/
def waitForClusterReady (env : SetupEnv) (T : Nat) : List Ev × Except String Unit :=
  let r := awaitReadyAux T env.checks env.tickDur 0 0
  let evs := r.2.flatMap wevToEvs
  match r.1 with
  | WRes.success _ _ => (evs, Except.ok ())
  | WRes.timeout _ =>
      (evs ++ diagnosticsEvs,
       Except.error "Failed waiting for cluster: Error: Timeout waiting for cluster to be ready")

/-- The job author's raw inputs; `none` means the input was not supplied
in the workflow file. -/
structure Inputs where
  version : Option String
  kubernetesVersion : Option String
  driver : Option String
  waitForReady : Option String
  timeout : Option String

/-- Modelled from the spec: the action manifest (`action.yml`) is not
among the embedded source files; per the spec's command-line surface the
five inputs are optional with defaults `version = "latest"`,
`kubernetes-version = "stable"`, `driver = "docker"`,
`wait-for-ready = "true"`, `timeout = "300"`, and `core.getInput` returns
the manifest default when the job author does not supply the input. -/
def actionDefault : String → String
  | "version" => "latest"
  | "kubernetes-version" => "stable"
  | "driver" => "docker"
  | "wait-for-ready" => "true"
  | "timeout" => "300"
  | _ => ""

/-- `core.getInput` as seen by `main`: the supplied value, else the
manifest default. -/
def getInput (i : Inputs) : String → String
  | "version" => i.version.getD (actionDefault "version")
  | "kubernetes-version" => i.kubernetesVersion.getD (actionDefault "kubernetes-version")
  | "driver" => i.driver.getD (actionDefault "driver")
  | "wait-for-ready" => i.waitForReady.getD (actionDefault "wait-for-ready")
  | "timeout" => i.timeout.getD (actionDefault "timeout")
  | _ => ""

/-- JS `s || d` on strings: the empty string is falsy. -/
def orDefault (s d : String) : String := if s = "" then d else s

/-- Base-10 accumulation of a digit list. -/
def digitsToNat : List Char → Nat → Nat
  | [], acc => acc
  | c :: cs, acc => digitsToNat cs (acc * 10 + (c.toNat - '0'.toNat))

/-- JS `parseInt(s, 10)` on the strings this action meets: parse the
leading decimal digits; no leading digit means `NaN`, modelled as
`none`. -/
def parseIntJS (s : String) : Option Nat :=
  let ds := s.data.takeWhile Char.isDigit
  if ds.isEmpty then none else some (digitsToNat ds 0)

/-- The configuration snapshot `main` resolves before running the steps. -/
structure Config where
  version : String
  kubernetesVersion : String
  driver : String
  waitForReady : Bool
  timeout : Nat
  deriving DecidableEq

/-- Input resolution at the top of `main`:
`core.getInput('version') || 'latest'` and so on;
`wait-for-ready` is compared against the literal `'true'` with no `||`
fallback; `timeout` is `parseInt(... || '300', 10)` (`none` when the
supplied string has no leading digit, in which case the JS comparison
against `NaN` would never trigger the timeout). -/
def resolveConfig (i : Inputs) : Option Config :=
  (parseIntJS (orDefault (getInput i "timeout") "300")).map fun t =>
    { version := orDefault (getInput i "version") "latest"
      kubernetesVersion := orDefault (getInput i "kubernetes-version") "stable"
      driver := orDefault (getInput i "driver") "docker"
      waitForReady := getInput i "wait-for-ready" = "true"
      timeout := t }

/-- The three provisioning steps plus the conditional readiness wait, in
order, each aborting the rest on error (setup is fail-fast). -/
def mainSteps (cfg : Config) (env : SetupEnv) : List Ev × Except String Unit :=
  let s1 := installPrerequisites env
  match s1.2 with
  | Except.error e => (s1.1, Except.error e)
  | Except.ok _ =>
    let s2 := installMinikube env cfg.version
    match s2.2 with
    | Except.error e => (s1.1 ++ s2.1, Except.error e)
    | Except.ok _ =>
      let s3 := startMinikube env cfg.kubernetesVersion cfg.driver
      match s3.2 with
      | Except.error e => (s1.1 ++ s2.1 ++ s3.1, Except.error e)
      | Except.ok _ =>
        if cfg.waitForReady then
          let s4 := waitForClusterReady env cfg.timeout
          (s1.1 ++ s2.1 ++ s3.1 ++ s4.1, s4.2)
        else (s1.1 ++ s2.1 ++ s3.1, Except.ok ())

/-- `main`: its very first action is `core.saveState('isPost', 'true')`,
before input resolution and before any step runs, so the marker is
persisted even when a later step fails. -/
def main (cfg : Config) (env : SetupEnv) : List Ev × Except String Unit :=
  let s := mainSteps cfg env
  (Ev.saveState "isPost" "true" :: s.1, s.2)

/-- Environment of the teardown phase.  Every `exec.exec` call in
`cleanup.ts` passes `ignoreReturnCode: true`, so a nonzero exit never
throws; what can still throw is the spawn itself (missing executable),
given by `throws`.  `statusExit` is the exit code of `minikube status`
and `emptyCheckExit` that of the bin-directory emptiness test. -/
structure CleanupEnv where
  home : Option String
  userprofile : Option String
  statusExit : Nat
  emptyCheckExit : Nat
  throws : String → List String → Bool

/-- `process.env.HOME || process.env.USERPROFILE || '~'` (empty strings
are falsy). -/
def cleanupHome (env : CleanupEnv) : String :=
  orDefault (env.home.getD "") (orDefault (env.userprofile.getD "") "~")

/-- Run a command list in order; a spawn throw records the attempted
invocation and aborts the remainder with an error. -/
def runSeq (throws : String → List String → Bool) :
    List (String × List String) → List Ev × Except Unit Unit
  | [] => ([], Except.ok ())
  | (n, a) :: rest =>
      if throws n a then ([Ev.run n a], Except.error ())
      else
        let r := runSeq throws rest
        (Ev.run n a :: r.1, r.2)

/-- The command sequence of `deleteMinikube` after the early-return guard:
`minikube status`; `minikube delete` only when status exited 0; removal
of `~/.minikube`, the two CNI directories and the recorded binary; and,
when a bin directory was recorded, the emptiness test followed by `rmdir`
only when that test exited 0. -/
def deleteCmds (env : CleanupEnv) (st : String → String) :
    List (String × List String) :=
  [("minikube", ["status"])]
  ++ (if env.statusExit = 0 then [("minikube", ["delete"])] else [])
  ++ [("rm", ["-rf", cleanupHome env ++ "/.minikube"]),
      ("sudo", ["rm", "-rf", "/etc/cni"]),
      ("sudo", ["rm", "-rf", "/opt/cni"]),
      ("rm", ["-f", st "minikubePath"])]
  ++ (if st "customBinDir" ≠ "" then
        [("bash",
          ["-c",
           "[ -d \"" ++ st "customBinDir" ++ "\" ] && [ -z \"$(ls -A \""
             ++ st "customBinDir" ++ "\")\" ]"])]
        ++ (if env.emptyCheckExit = 0 then [("rmdir", [st "customBinDir"])] else [])
      else [])

/-- `deleteMinikube`: `core.getState('minikubePath')` empty (falsy) means
nothing was installed this run — return before any command; otherwise run
the deletion sequence. -/
def deleteMinikube (env : CleanupEnv) (st : String → String) :
    List Ev × Except Unit Unit :=
  if st "minikubePath" = "" then ([], Except.ok ())
  else runSeq env.throws (deleteCmds env st)

/-- The Docker-removal command sequence of `removeDockerIfInstalled`. -/
def dockerCleanupCmds : List (String × List String) :=
  [("sudo", ["systemctl", "stop", "docker"]),
   ("sudo", ["systemctl", "stop", "docker.socket"]),
   ("sudo", ["apt-get", "purge", "-y", "-qq", "docker-ce", "docker-ce-cli", "containerd.io"]),
   ("sudo", ["rm", "-f", "/etc/apt/sources.list.d/docker.list"]),
   ("sudo", ["rm", "-f", "/etc/apt/keyrings/docker.gpg"]),
   ("sudo", ["rm", "-rf", "/var/lib/docker"]),
   ("sudo", ["rm", "-rf", "/var/lib/containerd"]),
   ("sudo", ["apt-get", "autoremove", "-y", "-qq"]),
   ("sudo", ["apt-get", "autoclean", "-qq"])]

/-- `removeDockerIfInstalled`: skip unless the persisted `dockerInstalled`
state reads exactly `'true'`; otherwise run the removal sequence inside
its own `try/catch`, which turns a failure into a warning and never
rethrows. -/
def removeDockerIfInstalled (env : CleanupEnv) (st : String → String) : List Ev :=
  if st "dockerInstalled" ≠ "true" then []
  else
    let r := runSeq env.throws dockerCleanupCmds
    match r.2 with
    | Except.ok _ => r.1
    | Except.error _ => r.1 ++ [Ev.warning "Failed to remove Docker"]

/-- `cleanup`: one `try/catch` wraps the call to `deleteMinikube` and the
subsequent call to `removeDockerIfInstalled`; a throw from the former is
caught here as a warning — and the latter is then never reached.  The
function itself never returns an error. -/
def cleanup (env : CleanupEnv) (st : String → String) :
    List Ev × Except Unit Unit :=
  let d := deleteMinikube env st
  match d.2 with
  | Except.error _ => (d.1 ++ [Ev.warning "Cleanup encountered errors"], Except.ok ())
  | Except.ok _ => (d.1 ++ removeDockerIfInstalled env st, Except.ok ())

/-- Keys of the persisted-state writes in a trace, in order. -/
def saveKeys (tr : List Ev) : List String :=
  tr.filterMap fun e =>
    match e with
    | Ev.saveState k _ => some k
    | _ => none

/-- One step of replaying a trace's state writes for a key `q`. -/
def stApply (q acc : String) : Ev → String
  | Ev.saveState k v => if k = q then v else acc
  | _ => acc

/-- `core.getState` over the state persisted by a setup trace: the last
written value for the key, or the empty string when the key is absent
(GitHub returns `''` for unset state). -/
def stateOf (tr : List Ev) (q : String) : String :=
  tr.foldl (stApply q) ""

/-- Shape check for readiness-loop traces: tick and sleep events strictly
alternate, starting with a tick (`expectTick = true` initially). -/
def altShape : List WEv → Bool → Bool
  | [], _ => true
  | WEv.tick _ _ :: rest, true => altShape rest false
  | WEv.sleepW _ :: rest, false => altShape rest true
  | _, _ => false

/-- Concrete configuration with the readiness wait disabled (small
traces for concrete evaluation). -/
def cfgNoWait : Config :=
  { version := "latest", kubernetesVersion := "stable", driver := "docker",
    waitForReady := false, timeout := 300 }

/-- The fully-defaulted configuration. -/
def cfgDefault : Config :=
  { version := "latest", kubernetesVersion := "stable", driver := "docker",
    waitForReady := true, timeout := 300 }

/-- A Linux runner on which everything succeeds, conntrack pre-exists and
the cluster is ready at the first tick. -/
def senvAllOk : SetupEnv :=
  { home := "/home/runner", pathVar := "/usr/bin", platform := "linux",
    arch := "x86_64", conntrackPresent := true, aptUpdateOk := true,
    aptInstallOk := true, unameOk := true, mkdirOk := true, curlOk := true,
    installOk := true, rmTmpOk := true, versionCheckOk := true,
    whichOk := true, whichOut := "/home/runner/.local/bin/minikube",
    startOk := true, kubectlViewOk := true,
    checks := fun _ => { statusExit := 0, clusterInfoExit := 0,
                         nodesGrepExit := 1, podsGrepExit := 1 },
    tickDur := fun _ => 0 }

/-- Same runner but conntrack is missing, so setup performs the
prerequisite installation. -/
def senvConntrackAbsent : SetupEnv :=
  { senvAllOk with conntrackPresent := false }

/-- Same runner but the binary download fails, so setup aborts before the
ledger records any install path. -/
def senvCurlFail : SetupEnv :=
  { senvAllOk with curlOk := false }

/-- Same runner but `uname -m` reports an architecture the install step
does not support. -/
def senvRiscv : SetupEnv :=
  { senvAllOk with arch := "riscv64" }

/-- Teardown environment in which no spawn throws; the cluster status
query reports no active environment and the bin directory is
non-empty. -/
def cenvNoThrow : CleanupEnv :=
  { home := some "/home/runner", userprofile := none,
    statusExit := 1, emptyCheckExit := 1, throws := fun _ _ => false }

/-- Teardown environment in which the very first command of the
cluster-delete step, `minikube status`, throws on spawn. -/
def cenvThrowStatus : CleanupEnv :=
  { home := some "/home/runner", userprofile := none,
    statusExit := 0, emptyCheckExit := 1,
    throws := fun n a => n == "minikube" && a == ["status"] }

/-- A persisted state with the binary path recorded and the Docker flag
set (a state the claim under test quantifies over). -/
def stBad : String → String := fun k =>
  if k = "minikubePath" then "/home/runner/.local/bin/minikube"
  else if k = "dockerInstalled" then "true"
  else ""

/-- A persisted state with only the binary path (and bin dir) recorded. -/
def stWithPath : String → String := fun k =>
  if k = "minikubePath" then "/home/runner/.local/bin/minikube"
  else if k = "customBinDir" then "/home/runner/.local/bin"
  else ""

/-! ## Lemmas about the readiness polling loop -/

/-- When no tick ever passes, the loop ends in the timeout throw, and the
elapsed milliseconds at the throw are at least `(T + 1) * 1000` (the
throw condition is `Math.floor(elapsed / 1000) > T`).  Stated with fuel
bounding the remaining budget so plain induction applies. -/
theorem awaitReadyAux_never (T : Nat) (c : Nat → TickExit) (dur : Nat → Nat)
    (h : ∀ j, ¬ tickPasses (c j)) :
    ∀ (n i elapsed : Nat), (T + 1) * 1000 - elapsed ≤ n →
      ∃ e, (awaitReadyAux T c dur i elapsed).1 = WRes.timeout e ∧ (T + 1) * 1000 ≤ e := by
  intro n
  induction n with
  | zero =>
    intro i elapsed hm
    have hge : (T + 1) * 1000 ≤ elapsed := by omega
    have hlt : T < elapsed / 1000 := by
      have h2 : T + 1 ≤ elapsed / 1000 :=
        (Nat.le_div_iff_mul_le (by norm_num : 0 < 1000)).mpr hge
      omega
    refine ⟨elapsed, ?_, hge⟩
    rw [awaitReadyAux]
    simp [hlt]
  | succ n ih =>
    intro i elapsed hm
    by_cases hlt : T < elapsed / 1000
    · have hge : (T + 1) * 1000 ≤ elapsed := by
        have h2 : T + 1 ≤ elapsed / 1000 := hlt
        exact (Nat.le_div_iff_mul_le (by norm_num : 0 < 1000)).mp h2
      refine ⟨elapsed, ?_, hge⟩
      rw [awaitReadyAux]
      simp [hlt]
    · obtain ⟨e, he, hge⟩ := ih (i + 1) (elapsed + dur i + 5000) (by omega)
      refine ⟨e, ?_, hge⟩
      rw [awaitReadyAux]
      simp [hlt, h i]
      exact he

/-- Every tick event in the loop's trace carries exactly the checks the
nested-if structure evaluates for that tick's exit codes. -/
theorem awaitReadyAux_tick_mem (T : Nat) (c : Nat → TickExit) (dur : Nat → Nat) :
    ∀ (n i elapsed : Nat), (T + 1) * 1000 - elapsed ≤ n →
      ∀ j evs, WEv.tick j evs ∈ (awaitReadyAux T c dur i elapsed).2 →
        evs = evaluatedChecks (c j) := by
  intro n
  induction n with
  | zero =>
    intro i elapsed hm j evs hmem
    have hlt : T < elapsed / 1000 := by
      have h2 : T + 1 ≤ elapsed / 1000 :=
        (Nat.le_div_iff_mul_le (by norm_num : 0 < 1000)).mpr (by omega)
      omega
    rw [awaitReadyAux] at hmem
    simp [hlt] at hmem
  | succ n ih =>
    intro i elapsed hm j evs hmem
    by_cases hlt : T < elapsed / 1000
    · rw [awaitReadyAux] at hmem
      simp [hlt] at hmem
    · by_cases hp : tickPasses (c i)
      · rw [awaitReadyAux] at hmem
        simp [hlt, hp] at hmem
        rw [hmem.2, hmem.1]
      · rw [awaitReadyAux] at hmem
        simp [hlt, hp] at hmem
        rcases hmem with ⟨hj, hevs⟩ | hmem
        · rw [hevs, hj]
        · exact ih (i + 1) (elapsed + dur i + 5000) (by omega) j evs hmem

/-- Every sleep event in the loop's trace is the fixed 5000 ms sleep. -/
theorem awaitReadyAux_sleep (T : Nat) (c : Nat → TickExit) (dur : Nat → Nat) :
    ∀ (n i elapsed : Nat), (T + 1) * 1000 - elapsed ≤ n →
      ∀ m, WEv.sleepW m ∈ (awaitReadyAux T c dur i elapsed).2 → m = 5000 := by
  intro n
  induction n with
  | zero =>
    intro i elapsed hm m hmem
    have hlt : T < elapsed / 1000 := by
      have h2 : T + 1 ≤ elapsed / 1000 :=
        (Nat.le_div_iff_mul_le (by norm_num : 0 < 1000)).mpr (by omega)
      omega
    rw [awaitReadyAux] at hmem
    simp [hlt] at hmem
  | succ n ih =>
    intro i elapsed hm m hmem
    by_cases hlt : T < elapsed / 1000
    · rw [awaitReadyAux] at hmem
      simp [hlt] at hmem
    · by_cases hp : tickPasses (c i)
      · rw [awaitReadyAux] at hmem
        simp [hlt, hp] at hmem
      · rw [awaitReadyAux] at hmem
        simp [hlt, hp] at hmem
        rcases hmem with hm5 | hmem
        · exact hm5
        · exact ih (i + 1) (elapsed + dur i + 5000) (by omega) m hmem

/-- A success result identifies a tick that passes all four checks, and
every tick the loop visited before it failed. -/
theorem awaitReadyAux_success (T : Nat) (c : Nat → TickExit) (dur : Nat → Nat) :
    ∀ (n i elapsed : Nat), (T + 1) * 1000 - elapsed ≤ n →
      ∀ j e, (awaitReadyAux T c dur i elapsed).1 = WRes.success j e →
        tickPasses (c j) ∧ ∀ m, i ≤ m → m < j → ¬ tickPasses (c m) := by
  intro n
  induction n with
  | zero =>
    intro i elapsed hm j e heq
    have hlt : T < elapsed / 1000 := by
      have h2 : T + 1 ≤ elapsed / 1000 :=
        (Nat.le_div_iff_mul_le (by norm_num : 0 < 1000)).mpr (by omega)
      omega
    rw [awaitReadyAux] at heq
    simp [hlt] at heq
  | succ n ih =>
    intro i elapsed hm j e heq
    by_cases hlt : T < elapsed / 1000
    · rw [awaitReadyAux] at heq
      simp [hlt] at heq
    · by_cases hp : tickPasses (c i)
      · rw [awaitReadyAux] at heq
        simp [hlt, hp] at heq
        obtain ⟨hij, _⟩ := heq
        subst hij
        refine ⟨hp, ?_⟩
        intro m him hmj
        exact absurd hmj (by omega)
      · rw [awaitReadyAux] at heq
        simp [hlt, hp] at heq
        obtain ⟨hpj, hbefore⟩ :=
          ih (i + 1) (elapsed + dur i + 5000) (by omega) j e heq
        refine ⟨hpj, ?_⟩
        intro m him hmj
        rcases Nat.eq_or_lt_of_le him with hmi | hmi
        · rw [← hmi]; exact hp
        · exact hbefore m hmi hmj

/-- The loop's trace alternates tick and sleep events, starting with a
tick. -/
theorem awaitReadyAux_alt (T : Nat) (c : Nat → TickExit) (dur : Nat → Nat) :
    ∀ (n i elapsed : Nat), (T + 1) * 1000 - elapsed ≤ n →
      altShape (awaitReadyAux T c dur i elapsed).2 true = true := by
  intro n
  induction n with
  | zero =>
    intro i elapsed hm
    have hlt : T < elapsed / 1000 := by
      have h2 : T + 1 ≤ elapsed / 1000 :=
        (Nat.le_div_iff_mul_le (by norm_num : 0 < 1000)).mpr (by omega)
      omega
    rw [awaitReadyAux]
    simp [hlt, altShape]
  | succ n ih =>
    intro i elapsed hm
    by_cases hlt : T < elapsed / 1000
    · rw [awaitReadyAux]
      simp [hlt, altShape]
    · by_cases hp : tickPasses (c i)
      · rw [awaitReadyAux]
        simp [hlt, hp, altShape]
      · rw [awaitReadyAux]
        simp [hlt, hp, altShape]
        exact ih (i + 1) (elapsed + dur i + 5000) (by omega)

/-- The nested-if structure of a tick: a later check appears among the
evaluated checks only when every earlier check in that tick passed. -/
theorem evaluatedChecks_gate (t : TickExit) :
    (CheckName.apiReachable ∈ evaluatedChecks t → t.statusExit = 0) ∧
    (CheckName.nodesReady ∈ evaluatedChecks t →
      t.statusExit = 0 ∧ t.clusterInfoExit = 0) ∧
    (CheckName.systemPodsSettled ∈ evaluatedChecks t →
      t.statusExit = 0 ∧ t.clusterInfoExit = 0 ∧ t.nodesGrepExit ≠ 0) := by
  unfold evaluatedChecks
  by_cases h1 : t.statusExit = 0 <;> by_cases h2 : t.clusterInfoExit = 0 <;>
    by_cases h3 : t.nodesGrepExit ≠ 0 <;> simp [h1, h2, h3]

/-! ## Lemmas about the ledger writes of the setup trace -/

theorem saveKeys_append (a b : List Ev) :
    saveKeys (a ++ b) = saveKeys a ++ saveKeys b := by
  simp [saveKeys, List.filterMap_append]

theorem saveKeys_cons_save (k v : String) (tr : List Ev) :
    saveKeys (Ev.saveState k v :: tr) = k :: saveKeys tr := by
  simp [saveKeys]

/-- The prerequisite step writes no ledger key. -/
theorem saveKeys_prereq (env : SetupEnv) :
    saveKeys (installPrerequisites env).1 = [] := by
  unfold installPrerequisites
  dsimp only
  repeat' split
  all_goals rfl

/-- The binary-install step writes either nothing (failure before the
record) or exactly the binary path and bin dir keys, in that order. -/
theorem saveKeys_install (env : SetupEnv) (v : String) :
    saveKeys (installMinikube env v).1 = [] ∨
    saveKeys (installMinikube env v).1 = ["minikubePath", "customBinDir"] := by
  unfold installMinikube
  dsimp only
  repeat' split
  all_goals first | exact Or.inl rfl | exact Or.inr rfl

/-- The cluster-start step writes no ledger key. -/
theorem saveKeys_start (env : SetupEnv) (k d : String) :
    saveKeys (startMinikube env k d).1 = [] := by
  unfold startMinikube
  dsimp only
  repeat' split
  all_goals rfl

theorem saveKeys_map_checkCmd (l : List CheckName) :
    saveKeys (l.map checkCmd) = [] := by
  induction l with
  | nil => rfl
  | cons c rest ih => cases c <;> simp [checkCmd, saveKeys] at ih ⊢ <;> exact ih

theorem saveKeys_wevToEvs (w : WEv) : saveKeys (wevToEvs w) = [] := by
  cases w with
  | tick i evs => exact saveKeys_map_checkCmd evs
  | sleepW n => rfl

theorem saveKeys_flatMap_wev (l : List WEv) :
    saveKeys (l.flatMap wevToEvs) = [] := by
  induction l with
  | nil => rfl
  | cons w rest ih =>
    rw [List.flatMap_cons, saveKeys_append, saveKeys_wevToEvs, ih]
    rfl

theorem saveKeys_diagnostics : saveKeys diagnosticsEvs = [] := rfl

/-- The readiness wait writes no ledger key. -/
theorem saveKeys_wait (env : SetupEnv) (T : Nat) :
    saveKeys (waitForClusterReady env T).1 = [] := by
  unfold waitForClusterReady
  cases hr : (awaitReadyAux T env.checks env.tickDur 0 0).1 with
  | success j e =>
      simp [hr, saveKeys_append, saveKeys_flatMap_wev, saveKeys_diagnostics]
  | timeout e =>
      simp [hr, saveKeys_append, saveKeys_flatMap_wev, saveKeys_diagnostics]

/-- The setup run's ledger writes: always `isPost` first, followed by the
two install keys exactly when the install step reached its record. -/
theorem saveKeys_main (cfg : Config) (env : SetupEnv) :
    saveKeys (main cfg env).1 = ["isPost"] ∨
    saveKeys (main cfg env).1 = ["isPost", "minikubePath", "customBinDir"] := by
  have h1 := saveKeys_prereq env
  have h3 := saveKeys_start env cfg.kubernetesVersion cfg.driver
  have h4 := saveKeys_wait env cfg.timeout
  rcases saveKeys_install env cfg.version with h2 | h2 <;>
    · unfold main mainSteps
      dsimp only
      repeat' split
      all_goals simp [saveKeys_cons_save, saveKeys_append, h1, h2, h3, h4]

/-- A trace with no write for a key replays to the empty string (GitHub's
`getState` default) whatever the accumulator. -/
theorem foldl_stApply_not_mem (q : String) :
    ∀ (l : List Ev) (acc : String), q ∉ saveKeys l →
      l.foldl (stApply q) acc = acc := by
  intro l
  induction l with
  | nil => intro acc _; rfl
  | cons e rest ih =>
    intro acc hq
    cases e with
    | saveState k v =>
      rw [saveKeys_cons_save] at hq
      have hk : ¬ k = q := fun hkq => hq (by rw [hkq]; exact List.mem_cons_self q _)
      have hq1 : q ∉ saveKeys rest := fun hmem => hq (List.mem_cons_of_mem _ hmem)
      simp only [List.foldl_cons, stApply, hk, if_false]
      exact ih acc hq1
    | run n a => exact ih acc hq
    | exportVar k v => exact ih acc hq
    | addPath p => exact ih acc hq
    | setOutput k v => exact ih acc hq
    | warning m => exact ih acc hq
    | mkdir p => exact ih acc hq
    | sleep n => exact ih acc hq

theorem stateOf_not_mem (tr : List Ev) (q : String) (h : q ∉ saveKeys tr) :
    stateOf tr q = "" :=
  foldl_stApply_not_mem q tr "" h

/-- No setup run ever records a `dockerInstalled` state. -/
theorem stateOf_main_dockerInstalled (cfg : Config) (env : SetupEnv) :
    stateOf (main cfg env).1 "dockerInstalled" = "" := by
  apply stateOf_not_mem
  rcases saveKeys_main cfg env with h | h <;> rw [h] <;> decide

/-- A `saveState` event's key is among the trace's save keys. -/
theorem mem_saveKeys_of_mem (tr : List Ev) (k v : String)
    (h : Ev.saveState k v ∈ tr) : k ∈ saveKeys tr := by
  induction tr with
  | nil => cases h
  | cons e rest ih =>
    rcases List.mem_cons.mp h with he | he
    · rw [← he, saveKeys_cons_save]
      exact List.mem_cons_self k _
    · cases e with
      | saveState k2 v2 =>
          rw [saveKeys_cons_save]
          exact List.mem_cons_of_mem _ (ih he)
      | run n a => exact ih he
      | exportVar k2 v2 => exact ih he
      | addPath p => exact ih he
      | setOutput k2 v2 => exact ih he
      | warning m => exact ih he
      | mkdir p => exact ih he
      | sleep n => exact ih he

/-! ## Lemmas about the teardown command sequences -/

/-- When no spawn throws, a command sequence runs to completion: every
command is attempted, in order, and no error escapes. -/
theorem runSeq_noThrow (throws : String → List String → Bool)
    (h : ∀ n a, throws n a = false) :
    ∀ l : List (String × List String),
      runSeq throws l = (l.map fun p => Ev.run p.1 p.2, Except.ok ()) := by
  intro l
  induction l with
  | nil => rfl
  | cons p rest ih =>
    cases p with
    | mk n a => simp [runSeq, h n a, ih]

/-- The first command of a sequence is always attempted, whether or not
its spawn throws. -/
theorem runSeq_head (throws : String → List String → Bool)
    (n : String) (a : List String) (rest : List (String × List String)) :
    ∃ tl, (runSeq throws ((n, a) :: rest)).1 = Ev.run n a :: tl := by
  by_cases hth : throws n a = true
  · exact ⟨[], by simp [runSeq, hth]⟩
  · exact ⟨(runSeq throws rest).1, by simp [runSeq, hth]⟩

/-- A command sequence's trace contains no state write. -/
theorem saveKeys_runSeq (throws : String → List String → Bool) :
    ∀ l : List (String × List String), saveKeys (runSeq throws l).1 = [] := by
  intro l
  induction l with
  | nil => rfl
  | cons p rest ih =>
    cases p with
    | mk n a =>
      by_cases hth : throws n a = true <;> simp [runSeq, hth] <;>
        first
        | rfl
        | exact ih

/-- The cluster-delete step of teardown never writes state. -/
theorem saveKeys_deleteMinikube (env : CleanupEnv) (st : String → String) :
    saveKeys (deleteMinikube env st).1 = [] := by
  unfold deleteMinikube
  split
  · rfl
  · exact saveKeys_runSeq env.throws _

/-- The Docker-removal step of teardown never writes state. -/
theorem saveKeys_removeDocker (env : CleanupEnv) (st : String → String) :
    saveKeys (removeDockerIfInstalled env st) = [] := by
  unfold removeDockerIfInstalled
  split
  · rfl
  · cases hr : (runSeq env.throws dockerCleanupCmds).2 with
    | ok u =>
        simp only [hr]
        exact saveKeys_runSeq env.throws _
    | error u =>
        simp only [hr]
        rw [saveKeys_append, saveKeys_runSeq env.throws]
        rfl

/-- The whole teardown never writes state. -/
theorem saveKeys_cleanup (env : CleanupEnv) (st : String → String) :
    saveKeys (cleanup env st).1 = [] := by
  unfold cleanup
  cases hd : (deleteMinikube env st).2 with
  | ok u =>
      simp only [hd]
      rw [saveKeys_append, saveKeys_deleteMinikube, saveKeys_removeDocker]
      rfl
  | error u =>
      simp only [hd]
      rw [saveKeys_append, saveKeys_deleteMinikube]
      rfl

/-! ## Claim theorems -/

/-- Claim C5: for every timeout `T` (seconds) and every condition sequence
that never fully succeeds in a single tick, the readiness loop terminates
by raising a timeout error, and only with at least `T` seconds of
wall-clock time elapsed since the loop began (`T * 1000 ≤ e`
milliseconds) — never before; `waitForClusterReady` then surfaces it as
the step's timeout error. -/
theorem readiness_timeout_boundary (T : Nat) (c : Nat → TickExit) (dur : Nat → Nat)
    (h : ∀ j, ¬ tickPasses (c j)) :
    ∃ e, (awaitReadyAux T c dur 0 0).1 = WRes.timeout e ∧ T * 1000 ≤ e ∧
      ∀ env : SetupEnv, env.checks = c → env.tickDur = dur →
        (waitForClusterReady env T).2 =
          Except.error
            "Failed waiting for cluster: Error: Timeout waiting for cluster to be ready" := by
  obtain ⟨e, he, hge⟩ :=
    awaitReadyAux_never T c dur h ((T + 1) * 1000) 0 0 (by omega)
  refine ⟨e, he, by omega, ?_⟩
  intro env hc hd
  simp [waitForClusterReady, hc, hd, he]

/-- Claim C5 witness: at `T = 1` with a condition sequence whose driver
status always exits 1. -/
theorem readiness_timeout_boundary_witness :
    ∃ e, (awaitReadyAux 1 (fun _ => ⟨1, 0, 1, 1⟩) (fun _ => 0) 0 0).1 = WRes.timeout e ∧
      1 * 1000 ≤ e ∧
      ∀ env : SetupEnv, env.checks = (fun _ => ⟨1, 0, 1, 1⟩) → env.tickDur = (fun _ => 0) →
        (waitForClusterReady env 1).2 =
          Except.error
            "Failed waiting for cluster: Error: Timeout waiting for cluster to be ready" :=
  readiness_timeout_boundary 1 (fun _ => ⟨1, 0, 1, 1⟩) (fun _ => 0)
    (by intro j; simp [tickPasses])

/-- Claim C6: within every polling tick a later readiness check is
evaluated only when every earlier check of that same tick passed (in
particular `NodesReady` never appears in a tick whose `APIReachable`
failed); the loop exits with success exactly on a tick where all four
checks pass (and every earlier tick failed); every sleep between ticks is
the fixed 5000 ms; and tick and sleep events strictly alternate starting
with a tick. -/
theorem readiness_monotonic_gating (T : Nat) (c : Nat → TickExit) (dur : Nat → Nat) :
    (∀ j evs, WEv.tick j evs ∈ (awaitReadyAux T c dur 0 0).2 →
      (CheckName.apiReachable ∈ evs → (c j).statusExit = 0) ∧
      (CheckName.nodesReady ∈ evs → (c j).statusExit = 0 ∧ (c j).clusterInfoExit = 0) ∧
      (CheckName.systemPodsSettled ∈ evs →
        (c j).statusExit = 0 ∧ (c j).clusterInfoExit = 0 ∧ (c j).nodesGrepExit ≠ 0)) ∧
    (∀ j e, (awaitReadyAux T c dur 0 0).1 = WRes.success j e →
      tickPasses (c j) ∧ ∀ m, m < j → ¬ tickPasses (c m)) ∧
    (∀ m, WEv.sleepW m ∈ (awaitReadyAux T c dur 0 0).2 → m = 5000) ∧
    altShape (awaitReadyAux T c dur 0 0).2 true = true := by
  refine ⟨?_, ?_, ?_, ?_⟩
  · intro j evs hmem
    have hevs := awaitReadyAux_tick_mem T c dur ((T + 1) * 1000) 0 0 (by omega) j evs hmem
    rw [hevs]
    exact evaluatedChecks_gate (c j)
  · intro j e heq
    obtain ⟨hpj, hbefore⟩ :=
      awaitReadyAux_success T c dur ((T + 1) * 1000) 0 0 (by omega) j e heq
    exact ⟨hpj, fun m hmj => hbefore m (Nat.zero_le m) hmj⟩
  · exact awaitReadyAux_sleep T c dur ((T + 1) * 1000) 0 0 (by omega)
  · exact awaitReadyAux_alt T c dur ((T + 1) * 1000) 0 0 (by omega)

/-- Claim C1 (amended): `cleanup` never propagates an error to its caller
— every internal failure is caught and logged as a warning — but the
single `try/catch` wraps both teardown steps, so a failure thrown inside
the cluster-delete/binary-removal step ends the run with only the warning
appended: the prerequisite-package reversal step is then not attempted. -/
theorem cleanup_never_throws_but_aborts_remaining (cenv : CleanupEnv)
    (st : String → String) :
    (cleanup cenv st).2 = Except.ok () ∧
    ((deleteMinikube cenv st).2 = Except.error () →
      (cleanup cenv st).1 =
        (deleteMinikube cenv st).1 ++ [Ev.warning "Cleanup encountered errors"]) := by
  constructor
  · cases hd : (deleteMinikube cenv st).2 with
    | ok u => simp [cleanup, hd]
    | error u => simp [cleanup, hd]
  · intro herr
    simp [cleanup, herr]

/-- Claim C1 counterexample: with the ledger flag for the prerequisite
reversal set and a throw inside the cluster-delete step, teardown stops
after the failed step — the trace holds only the attempted `minikube
status` and the warning; no reversal command was attempted, refuting "every
remaining teardown step is still attempted". -/
theorem cleanup_abort_counterexample :
    stBad "dockerInstalled" = "true" ∧
    (deleteMinikube cenvThrowStatus stBad).2 = Except.error () ∧
    (cleanup cenvThrowStatus stBad).1 =
      [Ev.run "minikube" ["status"], Ev.warning "Cleanup encountered errors"] := by
  decide

/-- Claim C2 (amended): setup never records any prerequisite-installed
flag — even a run that performs the conntrack installation writes no
`dockerInstalled` key; teardown attempts the package-reversal sequence
exactly when the persisted `dockerInstalled` value reads `"true"`, which
no state produced by this action's setup ever does, so teardown never
purges packages regardless of whether the prerequisite pre-existed. -/
theorem prerequisite_flag_never_recorded :
    (∀ (cfg : Config) (env : SetupEnv) (v : String),
      Ev.saveState "dockerInstalled" v ∉ (main cfg env).1) ∧
    (∀ (cenv : CleanupEnv) (st : String → String),
      st "dockerInstalled" ≠ "true" → removeDockerIfInstalled cenv st = []) ∧
    (∀ (cenv : CleanupEnv) (st : String → String),
      st "dockerInstalled" = "true" →
        Ev.run "sudo" ["systemctl", "stop", "docker"] ∈ removeDockerIfInstalled cenv st) ∧
    (∀ (cfg : Config) (senv : SetupEnv) (cenv : CleanupEnv),
      removeDockerIfInstalled cenv (stateOf (main cfg senv).1) = []) := by
  have hnot : ∀ (cfg : Config) (env : SetupEnv) (v : String),
      Ev.saveState "dockerInstalled" v ∉ (main cfg env).1 := by
    intro cfg env v hmem
    have hk := mem_saveKeys_of_mem _ _ _ hmem
    rcases saveKeys_main cfg env with h | h <;> rw [h] at hk <;>
      exact absurd hk (by decide)
  have hskip : ∀ (cenv : CleanupEnv) (st : String → String),
      st "dockerInstalled" ≠ "true" → removeDockerIfInstalled cenv st = [] := by
    intro cenv st hne
    unfold removeDockerIfInstalled
    rw [if_pos hne]
  have hrun : ∀ (cenv : CleanupEnv) (st : String → String),
      st "dockerInstalled" = "true" →
        Ev.run "sudo" ["systemctl", "stop", "docker"] ∈ removeDockerIfInstalled cenv st := by
    intro cenv st heq
    have hcmds : dockerCleanupCmds =
        ("sudo", ["systemctl", "stop", "docker"]) :: dockerCleanupCmds.tail := rfl
    obtain ⟨tl, htl⟩ := runSeq_head cenv.throws "sudo" ["systemctl", "stop", "docker"]
      dockerCleanupCmds.tail
    rw [← hcmds] at htl
    unfold removeDockerIfInstalled
    rw [if_neg (by simp [heq])]
    cases hrr : (runSeq cenv.throws dockerCleanupCmds).2 with
    | ok u => simp [hrr, htl]
    | error u => simp [hrr, htl]
  refine ⟨hnot, hskip, hrun, ?_⟩
  intro cfg senv cenv
  exact hskip cenv _ (by rw [stateOf_main_dockerInstalled]; decide)

/-- Claim C2 counterexample: a run on which conntrack is absent performs
the prerequisite installation, yet its ledger writes are exactly
`isPost`, `minikubePath`, `customBinDir` — no prerequisite flag — so the
claimed "recorded if the run performed the install" direction fails, and
the teardown reversal (gated on that flag) is skipped. -/
theorem prerequisite_flag_counterexample :
    Ev.run "sudo" ["apt-get", "install", "-y", "-qq", "conntrack"]
        ∈ (main cfgNoWait senvConntrackAbsent).1 ∧
    saveKeys (main cfgNoWait senvConntrackAbsent).1 =
      ["isPost", "minikubePath", "customBinDir"] ∧
    removeDockerIfInstalled cenvNoThrow
      (stateOf (main cfgNoWait senvConntrackAbsent).1) = [] := by
  decide

/-- Claim C3: on every teardown whose persisted state (as produced by any
setup run) lacks the `minikubePath` key, teardown performs no command at
all — no filesystem mutation, no driver status/delete — and emits no
warning: its whole trace is empty and it returns cleanly. -/
theorem teardown_skips_all_when_no_binary_recorded (cfg : Config)
    (senv : SetupEnv) (cenv : CleanupEnv)
    (h : stateOf (main cfg senv).1 "minikubePath" = "") :
    cleanup cenv (stateOf (main cfg senv).1) = ([], Except.ok ()) := by
  have hdocker : stateOf (main cfg senv).1 "dockerInstalled" = "" :=
    stateOf_main_dockerInstalled cfg senv
  have hdel : deleteMinikube cenv (stateOf (main cfg senv).1) = ([], Except.ok ()) := by
    unfold deleteMinikube
    rw [if_pos h]
  have hrd : removeDockerIfInstalled cenv (stateOf (main cfg senv).1) = [] := by
    unfold removeDockerIfInstalled
    rw [if_pos (by rw [hdocker]; decide)]
  simp [cleanup, hdel, hrd]

/-- Claim C3 witness: a setup run whose download fails before the ledger
records the binary path, followed by a teardown on the resulting state. -/
theorem teardown_skips_all_witness :
    stateOf (main cfgNoWait senvCurlFail).1 "minikubePath" = "" ∧
    cleanup cenvNoThrow (stateOf (main cfgNoWait senvCurlFail).1) =
      ([], Except.ok ()) :=
  ⟨by decide,
   teardown_skips_all_when_no_binary_recorded cfgNoWait senvCurlFail cenvNoThrow
     (by decide)⟩

/-- Claim C4: with every input absent the resolved configuration is
`version = "latest"`, `kubernetes-version = "stable"`,
`driver = "docker"`, `wait-for-ready = true`, `timeout = 300`; and under
that configuration the readiness wait is actually performed (the wait
loop's `kubectl cluster-info` probe appears in the setup trace). -/
theorem config_defaults_resolved :
    resolveConfig ⟨none, none, none, none, none⟩ = some cfgDefault ∧
    cfgDefault.waitForReady = true ∧ cfgDefault.timeout = 300 ∧
    Ev.run "kubectl" ["cluster-info"] ∈ (main cfgDefault senvAllOk).1 := by
  have h4 : Ev.run "kubectl" ["cluster-info"] ∈
      (waitForClusterReady senvAllOk cfgDefault.timeout).1 := by
    unfold waitForClusterReady
    rw [awaitReadyAux]
    decide
  have hm : (main cfgDefault senvAllOk).1 =
      Ev.saveState "isPost" "true" ::
        ((installPrerequisites senvAllOk).1 ++ (installMinikube senvAllOk cfgDefault.version).1 ++
          (startMinikube senvAllOk cfgDefault.kubernetesVersion cfgDefault.driver).1 ++
          (waitForClusterReady senvAllOk cfgDefault.timeout).1) := rfl
  refine ⟨by decide, rfl, rfl, ?_⟩
  rw [hm]
  exact List.mem_cons_of_mem _ (List.mem_append_right _ h4)

/-- Claim C7: `minikube start` is always invoked with `--driver` and the
resolved driver selector; the `--kubernetes-version` argument is appended
exactly when the version selector differs from the literal `"stable"`. -/
theorem start_invocation_arguments (env : SetupEnv) (k d : String) :
    (k = "stable" →
      (startMinikube env k d).1.head? =
        some (Ev.run "minikube" ["start", "--driver", d])) ∧
    (k ≠ "stable" →
      (startMinikube env k d).1.head? =
        some (Ev.run "minikube" ["start", "--driver", d, "--kubernetes-version", k])) := by
  constructor
  · intro hk
    cases hs : env.startOk <;> cases hv : env.kubectlViewOk <;>
      simp [startMinikube, startArgs, hs, hv, hk]
  · intro hk
    cases hs : env.startOk <;> cases hv : env.kubectlViewOk <;>
      simp [startMinikube, startArgs, hs, hv, hk]

/-- Claim C8: the install step maps `x86_64 → amd64`,
`aarch64`/`arm64 → arm64`, `armv7l → arm`; for every other architecture
string it fails at once with the unsupported-architecture error, and its
whole trace is the single `uname -m` call — in particular no `curl` fetch
was attempted. -/
theorem architecture_resolution_and_fetch_gating :
    binaryArch "x86_64" = some "amd64" ∧
    binaryArch "aarch64" = some "arm64" ∧
    binaryArch "arm64" = some "arm64" ∧
    binaryArch "armv7l" = some "arm" ∧
    ∀ (env : SetupEnv) (v : String), env.unameOk = true → binaryArch env.arch = none →
      (installMinikube env v).2 =
        Except.error
          ("Failed to install Minikube: Error: Unsupported architecture: " ++ env.arch) ∧
      (installMinikube env v).1 = [Ev.run "uname" ["-m"]] := by
  refine ⟨rfl, rfl, rfl, rfl, ?_⟩
  intro env v hu hn
  unfold installMinikube
  rw [hu, hn]
  exact ⟨rfl, rfl⟩

/-- Claim C9: every setup run's very first event is the
`isPost` phase-marker write (so it is persisted before the prerequisite,
install, start and readiness work, even when a later step fails); the
marker is written exactly once; every ledger key is written at most once;
and teardown writes no state key at all. -/
theorem ledger_discipline (cfg : Config) (env : SetupEnv) :
    (main cfg env).1.head? = some (Ev.saveState "isPost" "true") ∧
    (saveKeys (main cfg env).1).count "isPost" = 1 ∧
    (∀ k : String, (saveKeys (main cfg env).1).count k ≤ 1) ∧
    (∀ (cenv : CleanupEnv) (st : String → String),
      saveKeys (cleanup cenv st).1 = []) := by
  refine ⟨rfl, ?_, ?_, ?_⟩
  · rcases saveKeys_main cfg env with h | h <;> rw [h] <;> decide
  · intro k
    rcases saveKeys_main cfg env with h | h <;> rw [h]
    · exact (List.nodup_iff_count_le_one.mp (by decide)) k
    · exact (List.nodup_iff_count_le_one.mp (by decide)) k
  · intro cenv st
    exact saveKeys_cleanup cenv st

/-- Claim C10: whenever the persisted state holds a `minikubePath` (and no
spawn throws), teardown attempts `rm -rf` on the home-directory
`.minikube` data directory — a path derived from the environment, not
from any ledger key — regardless of the exit code of the driver's status
query. -/
theorem teardown_always_removes_minikube_dir (cenv : CleanupEnv)
    (st : String → String) (h : st "minikubePath" ≠ "")
    (hns : ∀ n a, cenv.throws n a = false) :
    Ev.run "rm" ["-rf", cleanupHome cenv ++ "/.minikube"] ∈ (cleanup cenv st).1 := by
  have hds := runSeq_noThrow cenv.throws hns (deleteCmds cenv st)
  have hmem : ("rm", ["-rf", cleanupHome cenv ++ "/.minikube"]) ∈ deleteCmds cenv st := by
    unfold deleteCmds
    simp
  have hin : Ev.run "rm" ["-rf", cleanupHome cenv ++ "/.minikube"]
      ∈ (deleteMinikube cenv st).1 := by
    unfold deleteMinikube
    rw [if_neg h, hds]
    exact List.mem_map_of_mem (fun p => Ev.run p.1 p.2) hmem
  unfold cleanup
  cases hd2 : (deleteMinikube cenv st).2 with
  | ok u =>
      simp only [hd2]
      exact List.mem_append_left _ hin
  | error u =>
      simp only [hd2]
      exact List.mem_append_left _ hin

/-- Claim C10 witness: a state recording the binary path, a teardown
environment whose status query reports no active cluster and where
nothing throws — the `rm -rf ~/.minikube` attempt is still in the
trace. -/
theorem teardown_always_removes_minikube_dir_witness :
    Ev.run "rm" ["-rf", cleanupHome cenvNoThrow ++ "/.minikube"]
      ∈ (cleanup cenvNoThrow stWithPath).1 :=
  teardown_always_removes_minikube_dir cenvNoThrow stWithPath (by decide)
    (fun n a => rfl)

end SetupMinikube
